import Mathlib

/-!
Verification development for the khoj-wrapper adapter (khoj_provider.go).

The Go source is shallowly embedded: Go strings become `List Char` (the
source only ever manipulates ASCII literals, byte offsets and byte lengths,
so characters are a faithful unit), Go ints become `Nat`/`Int`, fallible
operations return `Except`/`Option`, and the upstream HTTP backend is an
explicit oracle `Nat → UpstreamOutcome` giving the outcome of each attempt.
JSON (un)marshalling of the upstream response body is abstracted as a
`parse : Str → Option KhojResponse` parameter; marshalling of the request
never fails for the values the program builds and is not modelled.
Wall-clock sleeping is made observable: the retry loop records the delay in
seconds slept before each attempt it starts (0 for the first attempt, which
is not preceded by a sleep in the source).
-/

namespace KhojWrapper

/-- A Go string, embedded as its list of characters. -/
abbrev Str := List Char

/-- `Message` from khoj_provider.go (tool-call fields, which no verified
path reads, are omitted). -/
structure Message where
  role : Str
  content : Str
deriving DecidableEq, Repr

/-- `KhojFile` from khoj_provider.go. -/
structure KhojFile where
  name : Str
  content : Str
  fileType : Str
  size : Nat
deriving DecidableEq, Repr

/-- `KhojRequest` from khoj_provider.go. -/
structure KhojRequest where
  q : Str
  conversationID : Str
  stream : Bool
  clientID : Str
  files : List KhojFile
deriving DecidableEq, Repr

/-- `KhojResponse` from khoj_provider.go (context/intent/metadata fields the
adapter ignores are omitted). -/
structure KhojResponse where
  response : Str
  conversationID : Str
deriving DecidableEq, Repr

/-- `Usage` from khoj_provider.go. -/
structure Usage where
  promptTokens : Nat
  completionTokens : Nat
  totalTokens : Nat
deriving DecidableEq, Repr

/-- `Choice` from khoj_provider.go. -/
structure Choice where
  index : Nat
  message : Message
  finishReason : Str
deriving DecidableEq, Repr

/-- `ChatCompletionResponse` from khoj_provider.go. -/
structure ChatCompletionResponse where
  id : Str
  object : Str
  created : Nat
  model : Str
  choices : List Choice
  usage : Usage
deriving DecidableEq, Repr

/-- `ChatCompletionRequest` from khoj_provider.go (temperature, a float64
that is only copied and never computed with, and the unused tool fields are
omitted). -/
structure ChatCompletionRequest where
  model : Str
  messages : List Message
  maxTokens : Int
  stream : Bool
deriving DecidableEq, Repr

/-- `strings.Contains(s, pat)`: `pat` occurs as a contiguous substring of
`s`. -/
def hasSub : Str → Str → Bool
  | [], pat => pat.isEmpty
  | c :: rest, pat => pat.isPrefixOf (c :: rest) || hasSub rest pat

/-- The hard-coded conversation id constant `continueConversationID` at
khoj_provider.go:116. -/
def continueConversationID : Str :=
  ("96b2b033-f967-4fbd-af86-dd92001538a7").toList

/-- The fixed client identifier sent upstream (khoj_provider.go:641). -/
def khojClientID : Str := ("khoj-provider-continue").toList

/-- The 10,000-character size threshold of the HTML sniffing heuristic
(khoj_provider.go:601). -/
def largeContentThreshold : Nat := 10000

/-- The `<!DOCTYPE html>` document marker (khoj_provider.go:602). -/
def doctypeMarker : Str := ("<!DOCTYPE html>").toList

/-- The `<html` document marker (khoj_provider.go:602). -/
def htmlOpenMarker : Str := ("<html").toList

/-- The per-message predicate of khoj_provider.go:601-607:
`isLargeContent && containsHTML`. -/
def qualifiesAsHTMLFile (content : Str) : Bool :=
  decide (content.length > largeContentThreshold)
    && (hasSub content doctypeMarker || hasSub content htmlOpenMarker)

/-- The filename heuristic of khoj_provider.go:609-612. -/
def htmlFileName (content : Str) : Str :=
  if hasSub content (("index.html").toList) then ("index.html").toList
  else ("main.html").toList

/-- Decimal rendering of a natural number, as Go `fmt`'s `%d` prints it.
The structural `fuel` argument only bounds the recursion depth; `fuel = n+1`
always suffices because the loop divides by ten each step. -/
def natDigitsGo : Nat → Nat → Str
  | 0, _ => []
  | fuel + 1, n =>
    if n < 10 then [Nat.digitChar n]
    else natDigitsGo fuel (n / 10) ++ [Nat.digitChar (n % 10)]

/-- Decimal rendering of `n` (Go `%d`). -/
def natDigits (n : Nat) : Str := natDigitsGo (n + 1) n

/-- The replacement text `[File: %s (%d bytes) - sent in files array]` of
khoj_provider.go:628. -/
def fileMarkerText (filename : Str) (size : Nat) : Str :=
  ("[File: ").toList ++ filename ++ (" (").toList ++ natDigits size
    ++ (" bytes) - sent in files array]").toList

/-- One iteration of the message loop of khoj_provider.go:596-632: the text
that goes into the prompt for this message, and the file extracted from it,
if any. -/
def processMessage (m : Message) : Str × Option KhojFile :=
  if qualifiesAsHTMLFile m.content then
    (fileMarkerText (htmlFileName m.content) m.content.length,
      some { name := htmlFileName m.content, content := m.content,
             fileType := ("html").toList, size := m.content.length })
  else (m.content, none)

/-- The prompt line `"%s: %s\n"` written for a message
(khoj_provider.go:631). -/
def messageLine (m : Message) : Str :=
  m.role ++ (": ").toList ++ (processMessage m).1 ++ ("\n").toList

/-- The whole message loop of khoj_provider.go:596-634: the built prompt and
the extracted files, in input order. -/
def buildPromptAndFiles : List Message → Str × List KhojFile
  | [] => ([], [])
  | m :: rest =>
    let r := buildPromptAndFiles rest
    (messageLine m ++ r.1,
      match (processMessage m).2 with
      | some f => f :: r.2
      | none => r.2)

/-- The `KhojRequest` literal of khoj_provider.go:637-643. -/
def mkKhojRequest (q : Str) (files : List KhojFile) : KhojRequest :=
  { q := q, conversationID := continueConversationID, stream := false,
    clientID := khojClientID, files := files }

/-- The upstream request `HandleChatCompletion` builds for a message list:
prompt assembly (khoj_provider.go:596-634) followed by the request literal
(khoj_provider.go:637-643). -/
def buildKhojRequest (msgs : List Message) : KhojRequest :=
  mkKhojRequest (buildPromptAndFiles msgs).1 (buildPromptAndFiles msgs).2

/-- What the network yields for one attempt of `callKhojAPI`: a transport
failure of `HTTPClient.Do` (a body-read failure behaves identically and is
subsumed), or an HTTP response with its status code and body. -/
inductive UpstreamOutcome where
  | transportError
  | response (status : Nat) (body : Str)
deriving DecidableEq, Repr

/-- The per-attempt failures `callKhojAPI` stores in its `lastErr` variable
(khoj_provider.go:698-753): a transport/read failure, a non-200 status with
its body, or a 200 body that does not unmarshal. -/
inductive KhojAttemptError where
  | httpRequestFailed
  | apiError (status : Nat) (body : Str)
  | decodeFailed (body : Str)
deriving DecidableEq, Repr

/-- The failures `callKhojAPI` can return (khoj_provider.go:696-760):
`aborted` returns the current attempt's failure directly (the non-retryable
path at khoj_provider.go:740-746), and `exhausted` wraps the last stored
failure once all retries are spent (khoj_provider.go:759). -/
inductive KhojCallError where
  | aborted (e : KhojAttemptError)
  | exhausted (last : Option KhojAttemptError)
deriving DecidableEq, Repr

/-- Observable record of one `callKhojAPI` run: the sleep (in seconds)
performed before each attempt that was started, in order — 0 for the first
attempt, which the source does not precede with a sleep — and the final
result. An entry in `delays` corresponds to exactly one invocation of the
backend. -/
structure CallTrace where
  delays : List Nat
  result : Except KhojCallError KhojResponse
deriving Repr

/-- The sleep before a given zero-based attempt (khoj_provider.go:701-704):
`attempt * 2` seconds, so no sleep before attempt 0. -/
def attemptDelay (attempt : Nat) : Nat := attempt * 2

/-- The retry loop body of `callKhojAPI` (khoj_provider.go:700-757).
`fuel = maxRetries - attempt` counts the loop iterations left; `lastErr`
is the `lastErr` variable. Each started attempt records its preceding
delay and consults the network oracle once. A non-200 status below 500
aborts with `apiError`; a 5xx (or transport failure, or undecodable 200
body) stores `lastErr` and continues; a decodable 200 body succeeds. -/
def callKhojLoop (parse : Str → Option KhojResponse)
    (net : Nat → UpstreamOutcome) :
    Nat → Nat → Option KhojAttemptError → CallTrace
  | 0, _, lastErr => { delays := [], result := .error (.exhausted lastErr) }
  | fuel + 1, attempt, _lastErr =>
    let d := attemptDelay attempt
    match net attempt with
    | .transportError =>
      let t := callKhojLoop parse net fuel (attempt + 1)
        (some .httpRequestFailed)
      { delays := d :: t.delays, result := t.result }
    | .response status body =>
      if status ≠ 200 then
        if 500 ≤ status then
          let t := callKhojLoop parse net fuel (attempt + 1)
            (some (.apiError status body))
          { delays := d :: t.delays, result := t.result }
        else
          { delays := [d],
            result := .error (.aborted (.apiError status body)) }
      else
        match parse body with
        | none =>
          let t := callKhojLoop parse net fuel (attempt + 1)
            (some (.decodeFailed body))
          { delays := d :: t.delays, result := t.result }
        | some resp => { delays := [d], result := .ok resp }

/-- `maxRetries` of khoj_provider.go:697. -/
def maxRetries : Nat := 3

/-- `callKhojAPI` (khoj_provider.go:696-760) over the abstract network
oracle and body parser. -/
def callKhojAPI (parse : Str → Option KhojResponse)
    (net : Nat → UpstreamOutcome) : CallTrace :=
  callKhojLoop parse net maxRetries 0 none

/-- The `ChatCompletionResponse` literal of khoj_provider.go:671-691:
synthesized id, model echo, single assistant choice with finish reason
"stop", and length/4 usage estimates. `now` is `time.Now().Unix()`. -/
def mkChatResponse (now : Nat) (model : Str) (finalPrompt : Str)
    (kresp : KhojResponse) : ChatCompletionResponse :=
  { id := ("chatcmpl-").toList ++ natDigits now,
    object := ("chat.completion").toList,
    created := now,
    model := model,
    choices := [{ index := 0,
                  message := { role := ("assistant").toList,
                               content := kresp.response },
                  finishReason := ("stop").toList }],
    usage := { promptTokens := finalPrompt.length / 4,
               completionTokens := kresp.response.length / 4,
               totalTokens :=
                 (finalPrompt.length + kresp.response.length) / 4 } }

/-- `HandleChatCompletion` (khoj_provider.go:589-694): build prompt and
files, build the upstream request, call the upstream client, and map the
result. The network oracle is keyed by the request actually sent. -/
def handleChatCompletion (now : Nat) (parse : Str → Option KhojResponse)
    (net : KhojRequest → Nat → UpstreamOutcome)
    (req : ChatCompletionRequest) :
    Except KhojCallError ChatCompletionResponse :=
  let pf := buildPromptAndFiles req.messages
  match (callKhojAPI parse (net (mkKhojRequest pf.1 pf.2))).result with
  | .error e => .error e
  | .ok kresp => .ok (mkChatResponse now req.model pf.1 kresp)

/-- One server-sent-event frame written by `handleStreamingRequest`:
a delta frame carrying a chunk of content (finish_reason null), the
terminal frame (its delta object and finish_reason as written), the
literal `[DONE]` sentinel, or the error frame
`{error: {message, type}}` with its type tag. -/
inductive StreamFrame where
  | content (delta : Str)
  | terminal (delta : Str) (finishReason : Str)
  | done
  | errFrame (err : KhojCallError) (errType : Str)
deriving DecidableEq, Repr

/-- `chunkSize` of khoj_provider.go:805. -/
def chunkSize : Nat := 50

/-- The chunking loop of khoj_provider.go:807-848 on the part of the
content not yet emitted: each step takes the next `kp + 1` characters
(the chunk size, kept positive by construction so the loop advances, as
the source's literal 50 does). The structural `fuel` bounds the number of
steps; the content's length always suffices. -/
def chunksGo (kp : Nat) : Nat → Str → List Str
  | 0, _ => []
  | fuel + 1, s =>
    match s with
    | [] => []
    | _ :: _ => s.take (kp + 1) :: chunksGo kp fuel (s.drop (kp + 1))

/-- The list of 50-character content chunks `handleStreamingRequest` emits
for a completion text (the last chunk may be shorter; empty text gives no
chunks, as the source loop's guard `i < len(content)` does). -/
def streamChunks (content : Str) : List Str :=
  chunksGo (chunkSize - 1) content.length content

/-- `resp.Choices[0].Message.Content` (khoj_provider.go:804). The source
indexes position 0 unconditionally; every response the program builds has
exactly one choice. -/
def firstChoiceContent (resp : ChatCompletionResponse) : Str :=
  match resp.choices with
  | [] => []
  | c :: _ => c.message.content

/-- `handleStreamingRequest` (khoj_provider.go:781-871) after the initial
synchronous fetch: on fetch failure, a single error frame with type tag
"api_error" and nothing else (khoj_provider.go:791-802); on success, the
content chunks in order, then the terminal frame with empty delta and
finish_reason "stop", then the `[DONE]` sentinel
(khoj_provider.go:804-866). -/
def handleStreamingRequest
    (fetch : Except KhojCallError ChatCompletionResponse) :
    List StreamFrame :=
  match fetch with
  | .error e => [.errFrame e (("api_error").toList)]
  | .ok resp =>
    (streamChunks (firstChoiceContent resp)).map .content
      ++ [.terminal [] (("stop").toList), .done]

/-- The `/v1/completions` request body (khoj_provider.go:1082-1088);
temperature, a float64 that is only copied, is omitted. -/
structure CompletionRequest where
  model : Str
  prompt : Str
  maxTokens : Int
  stream : Bool
deriving DecidableEq, Repr

/-- The Apply-request sniff of khoj_provider.go:1097. -/
def isApplyRequest (prompt : Str) : Bool :=
  hasSub prompt doctypeMarker || hasSub prompt htmlOpenMarker

/-- One choice of the legacy `text_completion` response shape
(khoj_provider.go:1225-1229). -/
structure TextChoice where
  text : Str
  index : Nat
  finishReason : Str
deriving DecidableEq, Repr

/-- The legacy `text_completion` response shape
(khoj_provider.go:1220-1256). -/
structure TextCompletionResponse where
  id : Str
  object : Str
  created : Nat
  model : Str
  choices : List TextChoice
  usage : Usage
deriving DecidableEq, Repr

/-- The rewrap of a legacy completion request into a chat request with a
single user message (khoj_provider.go:1203-1211). -/
def rewrapCompletion (req : CompletionRequest) : ChatCompletionRequest :=
  { model := req.model,
    messages := [{ role := ("user").toList, content := req.prompt }],
    maxTokens := req.maxTokens,
    stream := req.stream }

/-- The reshape of a chat response into the `text_completion` shape with
one choice (khoj_provider.go:1220-1256). -/
def reshapeToTextCompletion (c : ChatCompletionResponse) :
    TextCompletionResponse :=
  { id := c.id, object := ("text_completion").toList, created := c.created,
    model := c.model,
    choices := [{ text := firstChoiceContent c, index := 0,
                  finishReason := ("stop").toList }],
    usage := c.usage }

/-- What the `/v1/completions` handler sends back: the Apply branch's
plain-text diff (khoj_provider.go:1102-1198 — the diff text itself is
produced by the out-of-scope filesystem-reading diff generator, so only
the branch taken is modelled), the generic 500 error, or a
`text_completion` body. -/
inductive CompletionsOutcome where
  | applyDiff
  | serverError
  | completion (resp : TextCompletionResponse)
deriving Repr

/-- The `/v1/completions` handler (khoj_provider.go:1059-1260) after JSON
decoding: an HTML-bearing prompt takes the Apply branch; anything else is
rewrapped, routed through `handleChatCompletion` and reshaped. -/
def handleCompletions (now : Nat) (parse : Str → Option KhojResponse)
    (net : KhojRequest → Nat → UpstreamOutcome)
    (req : CompletionRequest) : CompletionsOutcome :=
  if isApplyRequest req.prompt then .applyDiff
  else
    match handleChatCompletion now parse net (rewrapCompletion req) with
    | .error _ => .serverError
    | .ok c => .completion (reshapeToTextCompletion c)

/-- Modelled from the spec: the Conversation Lifecycle Manager (described
in the spec but absent from the source file under verification, which
belongs to a UI shell outside it) seeds the process-wide active
conversation handle at startup — the persisted handle when one is present,
otherwise the handle returned by remote session creation. -/
def seededActiveHandle (persistedHandle createdHandle : Str) : Str :=
  if persistedHandle.isEmpty then createdHandle else persistedHandle

/-- `hasSub s pat` is exactly substring occurrence (`strings.Contains`). -/
theorem hasSub_iff_occurs (pat s : Str) : hasSub s pat = true ↔ pat <:+: s := by
  induction s with
  | nil => simp [hasSub, List.isEmpty_iff]
  | cons c rest ih =>
    simp [hasSub, Bool.or_eq_true, List.isPrefixOf_iff_prefix, ih,
      List.infix_cons_iff]

/-- Decimal digit characters are never the character the HTML markers open
with. -/
theorem digitChar_ne_lt : ∀ d : Nat, d < 10 → Nat.digitChar d ≠ ('<') := by
  decide

/-- No character of a decimal rendering is the HTML opening angle. -/
theorem mem_natDigitsGo_ne_lt :
    ∀ fuel n c, c ∈ natDigitsGo fuel n → c ≠ ('<') := by
  intro fuel
  induction fuel with
  | zero => intro n c hc; simp [natDigitsGo] at hc
  | succ f ih =>
    intro n c hc
    by_cases h10 : n < 10
    · simp [natDigitsGo, h10] at hc
      subst hc; exact digitChar_ne_lt n h10
    · simp [natDigitsGo, h10] at hc
      rcases hc with hc | hc
      · exact ih _ _ hc
      · subst hc; exact digitChar_ne_lt _ (Nat.mod_lt _ (by omega))

/-- The replacement text for an extracted file contains no opening angle
character. -/
theorem lt_not_mem_fileMarkerText (content : Str) (size : Nat) :
    ('<') ∉ fileMarkerText (htmlFileName content) size := by
  intro hmem
  simp only [fileMarkerText, List.mem_append] at hmem
  rcases hmem with (((hA | hN) | hB) | hD) | hC
  · exact absurd hA (by decide)
  · unfold htmlFileName at hN
    split at hN <;> exact absurd hN (by decide)
  · exact absurd hB (by decide)
  · exact mem_natDigitsGo_ne_lt _ _ _ hD rfl
  · exact absurd hC (by decide)

/-- A qualifying message body (which contains an HTML marker, hence an
opening angle) can never occur inside the replacement text that stands in
for it. -/
theorem qualifying_content_not_infix_marker (content : Str) (size : Nat)
    (hq : qualifiesAsHTMLFile content = true) :
    ¬ content <:+: fileMarkerText (htmlFileName content) size := by
  intro hinf
  have hlt : ('<') ∈ content := by
    simp only [qualifiesAsHTMLFile, Bool.and_eq_true, Bool.or_eq_true,
      decide_eq_true_eq] at hq
    rcases hq.2 with h | h
    · exact ((hasSub_iff_occurs _ _).1 h).subset (by decide)
    · exact ((hasSub_iff_occurs _ _).1 h).subset (by decide)
  exact lt_not_mem_fileMarkerText content size (hinf.subset hlt)

/-- The extracted file list is the per-message extraction results in input
order. -/
theorem buildFiles_eq_filterMap (msgs : List Message) :
    (buildPromptAndFiles msgs).2
      = msgs.filterMap (fun m => (processMessage m).2) := by
  induction msgs with
  | nil => rfl
  | cons m rest ih =>
    simp only [buildPromptAndFiles, List.filterMap_cons]
    cases h : (processMessage m).2 <;> simp [h, ih]

/-- The chunking loop emits nothing once the content is exhausted. -/
theorem chunksGo_nil (kp fuel : Nat) : chunksGo kp fuel [] = [] := by
  cases fuel <;> rfl

/-- One step of the chunking loop on non-empty remaining content. -/
theorem chunksGo_cons_of_ne (kp fuel : Nat) (s : Str) (hs : s ≠ []) :
    chunksGo kp (fuel + 1) s
      = s.take (kp + 1) :: chunksGo kp fuel (s.drop (kp + 1)) := by
  cases s with
  | nil => exact absurd rfl hs
  | cons a t => rfl

/-- A 120-character completion is sliced into chunks of 50, 50 and 20
characters, in order. -/
theorem streamChunks_of_length_120 (c : Str) (h : c.length = 120) :
    streamChunks c = [c.take 50, (c.drop 50).take 50, c.drop 100] := by
  have h0 : c ≠ [] := by intro he; rw [he] at h; simp at h
  have h50 : (c.drop 50).length = 70 := by simp [List.length_drop, h]
  have h1 : c.drop 50 ≠ [] := by
    intro he; rw [he] at h50; simp at h50
  have h100 : ((c.drop 50).drop 50).length = 20 := by
    simp [List.length_drop, h]
  have h2 : (c.drop 50).drop 50 ≠ [] := by
    intro he; rw [he] at h100; simp at h100
  have hdd : (c.drop 50).drop 50 = c.drop 100 := by
    rw [List.drop_drop]
  have hdrop120 : ((c.drop 50).drop 50).drop 50 = [] := by
    apply List.drop_eq_nil_of_le; omega
  have hsz : chunkSize - 1 + 1 = 50 := rfl
  rw [streamChunks, h]
  rw [show (120 : Nat) = 119 + 1 from rfl, chunksGo_cons_of_ne _ _ _ h0]
  rw [hsz]
  rw [show (119 : Nat) = 118 + 1 from rfl, chunksGo_cons_of_ne _ _ _ h1]
  rw [hsz]
  rw [show (118 : Nat) = 117 + 1 from rfl, chunksGo_cons_of_ne _ _ _ h2]
  rw [hsz]
  rw [hdrop120, chunksGo_nil]
  rw [List.take_of_length_le
    (by omega : ((c.drop 50).drop 50).length ≤ 50), hdd]

/-- Claim C1 (amended): the conversation handle sent upstream by
`HandleChatCompletion` is, for every request, the hard-coded constant
`continueConversationID` ("96b2b033-f967-4fbd-af86-dd92001538a7"); it is
not read from any conversation-lifecycle state. -/
theorem upstream_conversation_handle_constant (msgs : List Message) :
    (buildKhojRequest msgs).conversationID
      = ("96b2b033-f967-4fbd-af86-dd92001538a7").toList := rfl

/-- Claim C1 counterexample: with a lifecycle state seeded from a persisted
handle "abcd1234" (as the spec describes), the upstream request built for a
plain chat message does not carry that active handle, refuting the claim
that the upstream request always carries the Lifecycle Manager's current
active handle. -/
theorem upstream_conversation_handle_not_lifecycle :
    (buildKhojRequest
        [{ role := ("user").toList,
           content := ("hi").toList }]).conversationID
      ≠ seededActiveHandle (("abcd1234").toList) (("fresh").toList) := by
  decide

/-- Claim C2: when the backend returns HTTP 500 on attempts 1 and 2 and a
parseable HTTP 200 on attempt 3, the chat call succeeds with that parsed
response, the backend is consulted exactly three times, and the sleeps
before the three attempts are 0, 2 and 4 seconds. -/
theorem khoj_retry_two_500_then_success
    (parse : Str → Option KhojResponse) (net : Nat → UpstreamOutcome)
    (b0 b1 body : Str) (r : KhojResponse)
    (h0 : net 0 = .response 500 b0) (h1 : net 1 = .response 500 b1)
    (h2 : net 2 = .response 200 body) (hp : parse body = some r) :
    callKhojAPI parse net = { delays := [0, 2, 4], result := .ok r }
    ∧ (callKhojAPI parse net).delays.length = 3 := by
  have h : callKhojAPI parse net
      = { delays := [0, 2, 4], result := .ok r } := by
    simp [callKhojAPI, maxRetries, callKhojLoop, h0, h1, h2, hp,
      attemptDelay]
  exact ⟨h, by rw [h]; rfl⟩

/-- Shared network/parse fixtures for the concrete witnesses. -/
def witKhojResp : KhojResponse :=
  { response := ("hello").toList, conversationID := ("abc").toList }

/-- A body parser accepting exactly the body "good". -/
def witParse : Str → Option KhojResponse := fun b =>
  if b = ("good").toList then some witKhojResp else none

/-- A backend failing twice with 500 and then answering 200 "good". -/
def wit500Net : Nat → UpstreamOutcome := fun a =>
  if a = 0 then .response 500 (("boom1").toList)
  else if a = 1 then .response 500 (("boom2").toList)
  else .response 200 (("good").toList)

/-- Claim C2 witness: the retry scenario evaluated on a concrete backend. -/
theorem khoj_retry_two_500_then_success_witness :
    callKhojAPI witParse wit500Net
        = { delays := [0, 2, 4], result := .ok witKhojResp }
    ∧ (callKhojAPI witParse wit500Net).delays.length = 3 :=
  khoj_retry_two_500_then_success witParse wit500Net
    (("boom1").toList) (("boom2").toList) (("good").toList) witKhojResp
    rfl rfl rfl rfl

/-- Claim C3: an HTTP 4xx on the first attempt makes the chat call fail
after exactly one attempt — a single zero-second delay entry, so no retry
and no sleep — and the error carries the HTTP status and the response
body. -/
theorem khoj_4xx_aborts_after_one_attempt
    (parse : Str → Option KhojResponse) (net : Nat → UpstreamOutcome)
    (s : Nat) (b : Str) (h4 : 400 ≤ s) (h4b : s ≤ 499)
    (h0 : net 0 = .response s b) :
    callKhojAPI parse net
      = { delays := [0], result := .error (.aborted (.apiError s b)) } := by
  have hne : s ≠ 200 := by omega
  have h5 : ¬ 500 ≤ s := by omega
  simp [callKhojAPI, maxRetries, callKhojLoop, h0, hne, h5, attemptDelay]

/-- A backend answering 400 with body "bad" on every attempt. -/
def wit400Net : Nat → UpstreamOutcome := fun _ =>
  .response 400 (("bad").toList)

/-- Claim C3 witness: the 400 scenario evaluated on a concrete backend. -/
theorem khoj_4xx_aborts_after_one_attempt_witness :
    callKhojAPI witParse wit400Net
      = { delays := [0],
          result := .error (.aborted (.apiError 400 (("bad").toList))) } :=
  khoj_4xx_aborts_after_one_attempt witParse wit400Net 400
    (("bad").toList) (by decide) (by decide) rfl

/-- Claim C4: an HTTP 200 whose body fails to parse consumes one attempt
and the loop retries with the same backoff as for a 5xx — here the second
attempt (after the same 2-second sleep a 5xx would incur) succeeds, so the
call returns its parsed response after two attempts. -/
theorem khoj_parse_failure_retries
    (parse : Str → Option KhojResponse) (net : Nat → UpstreamOutcome)
    (b0 b1 : Str) (r : KhojResponse)
    (h0 : net 0 = .response 200 b0) (hp0 : parse b0 = none)
    (h1 : net 1 = .response 200 b1) (hp1 : parse b1 = some r) :
    callKhojAPI parse net = { delays := [0, 2], result := .ok r } := by
  simp [callKhojAPI, maxRetries, callKhojLoop, h0, h1, hp0, hp1,
    attemptDelay]

/-- A backend answering 200 with an unparseable body first, then 200
"good". -/
def witBadBodyNet : Nat → UpstreamOutcome := fun a =>
  if a = 0 then .response 200 (("nonsense").toList)
  else .response 200 (("good").toList)

/-- Claim C4 witness: the parse-failure scenario on a concrete backend. -/
theorem khoj_parse_failure_retries_witness :
    callKhojAPI witParse witBadBodyNet
      = { delays := [0, 2], result := .ok witKhojResp } :=
  khoj_parse_failure_retries witParse witBadBodyNet
    (("nonsense").toList) (("good").toList) witKhojResp rfl rfl rfl rfl

/-- Claim C10: any first-attempt response whose status is neither 200 nor
at least 500 — which includes 2xx statuses other than 200, such as 201,
and all 3xx and 4xx statuses — fails the call immediately after that
single attempt with an error carrying the status and body; no retry
happens (statuses of at least 500, transport failures and parse failures
are the only retried outcomes, and only exact status 200 reaches body
parsing). -/
theorem khoj_non_200_below_500_aborts
    (parse : Str → Option KhojResponse) (net : Nat → UpstreamOutcome)
    (s : Nat) (b : Str) (hne : s ≠ 200) (hlt : s < 500)
    (h0 : net 0 = .response s b) :
    callKhojAPI parse net
      = { delays := [0], result := .error (.aborted (.apiError s b)) } := by
  have h5 : ¬ 500 ≤ s := by omega
  simp [callKhojAPI, maxRetries, callKhojLoop, h0, hne, h5, attemptDelay]

/-- A backend answering 201 on every attempt. -/
def wit201Net : Nat → UpstreamOutcome := fun _ =>
  .response 201 (("created").toList)

/-- Claim C10 witness: status 201 evaluated on a concrete backend. -/
theorem khoj_non_200_below_500_aborts_witness :
    callKhojAPI witParse wit201Net
      = { delays := [0],
          result :=
            .error (.aborted (.apiError 201 (("created").toList))) } :=
  khoj_non_200_below_500_aborts witParse wit201Net 201
    (("created").toList) (by decide) (by decide) rfl

/-- Claim C5: a message whose content is longer than 10,000 characters and
contains an HTML document marker is attached to the upstream request as a
file — with the content itself, type tag "html", size equal to the content
length, and name "index.html" exactly when the content contains that
substring (else "main.html", both via `htmlFileName`) — while its prompt
line carries only the short replacement text, inside which the content
cannot occur; a message failing either condition contributes no file (every
attached file stems from a qualifying message), and its content is inlined
in its prompt line unchanged. -/
theorem html_attachment_extraction (msgs : List Message) :
    (∀ m, m ∈ msgs → qualifiesAsHTMLFile m.content = true →
      ({ name := htmlFileName m.content, content := m.content,
         fileType := ("html").toList, size := m.content.length } : KhojFile)
          ∈ (buildPromptAndFiles msgs).2
        ∧ messageLine m
            = m.role ++ (": ").toList
                ++ (fileMarkerText (htmlFileName m.content) m.content.length
                    ++ ("\n").toList)
        ∧ ¬ m.content <:+:
              fileMarkerText (htmlFileName m.content) m.content.length)
    ∧ (∀ m, m ∈ msgs → qualifiesAsHTMLFile m.content = false →
        (processMessage m).2 = none
          ∧ messageLine m
              = m.role ++ (": ").toList ++ (m.content ++ ("\n").toList))
    ∧ (∀ f, f ∈ (buildPromptAndFiles msgs).2 →
        ∃ m, m ∈ msgs ∧ qualifiesAsHTMLFile m.content = true
          ∧ f = { name := htmlFileName m.content, content := m.content,
                  fileType := ("html").toList,
                  size := m.content.length }) := by
  refine ⟨?_, ?_, ?_⟩
  · intro m hm hq
    refine ⟨?_, ?_,
      qualifying_content_not_infix_marker m.content m.content.length hq⟩
    · rw [buildFiles_eq_filterMap]
      exact List.mem_filterMap.2 ⟨m, hm, by simp [processMessage, hq]⟩
    · simp [messageLine, processMessage, hq]
  · intro m hm hq
    exact ⟨by simp [processMessage, hq],
      by simp [messageLine, processMessage, hq]⟩
  · intro f hf
    rw [buildFiles_eq_filterMap] at hf
    rcases List.mem_filterMap.1 hf with ⟨m, hm, hpm⟩
    by_cases hq : qualifiesAsHTMLFile m.content = true
    · refine ⟨m, hm, hq, ?_⟩
      simp [processMessage, hq] at hpm
      exact hpm.symm
    · have hq' : qualifiesAsHTMLFile m.content = false := by
        simpa using hq
      simp [processMessage, hq'] at hpm

/-- Claim C6: every successfully served chat completion reports
prompt_tokens as the built prompt's length divided by 4,
completion_tokens as the completion text's length divided by 4, and
total_tokens as the sum of the two lengths divided by 4 (integer
division throughout, applied to the concatenated length rather than to the
two already-rounded components). -/
theorem usage_token_estimates (now : Nat)
    (parse : Str → Option KhojResponse)
    (net : KhojRequest → Nat → UpstreamOutcome)
    (req : ChatCompletionRequest) (resp : ChatCompletionResponse)
    (hok : handleChatCompletion now parse net req = .ok resp) :
    resp.usage.promptTokens
        = (buildPromptAndFiles req.messages).1.length / 4
    ∧ resp.usage.completionTokens = (firstChoiceContent resp).length / 4
    ∧ resp.usage.totalTokens
        = ((buildPromptAndFiles req.messages).1.length
            + (firstChoiceContent resp).length) / 4 := by
  simp only [handleChatCompletion] at hok
  cases hres : (callKhojAPI parse
      (net (mkKhojRequest (buildPromptAndFiles req.messages).1
        (buildPromptAndFiles req.messages).2))).result with
  | error e => rw [hres] at hok; simp at hok
  | ok kresp =>
    rw [hres] at hok
    simp only [Except.ok.injEq] at hok
    subst hok
    simp [mkChatResponse, firstChoiceContent]

/-- A backend answering 200 "good" on every attempt, for any request. -/
def witNet : KhojRequest → Nat → UpstreamOutcome := fun _ _ =>
  .response 200 (("good").toList)

/-- A concrete chat request with a single short user message. -/
def witChatReq : ChatCompletionRequest :=
  { model := ("khoj-chat").toList,
    messages := [{ role := ("user").toList, content := ("hi").toList }],
    maxTokens := 0, stream := false }

/-- The chat response the fixtures produce for `witChatReq`. -/
def witChatResp : ChatCompletionResponse :=
  mkChatResponse 7 witChatReq.model
    (buildPromptAndFiles witChatReq.messages).1 witKhojResp

/-- Claim C6 witness: the usage formula evaluated on a concrete served
request (prompt "user: hi\n" of length 9, completion "hello" of
length 5). -/
theorem usage_token_estimates_witness :
    witChatResp.usage.promptTokens
        = (buildPromptAndFiles witChatReq.messages).1.length / 4
    ∧ witChatResp.usage.completionTokens
        = (firstChoiceContent witChatResp).length / 4
    ∧ witChatResp.usage.totalTokens
        = ((buildPromptAndFiles witChatReq.messages).1.length
            + (firstChoiceContent witChatResp).length) / 4 :=
  usage_token_estimates 7 witParse witNet witChatReq witChatResp rfl

/-- Claim C7: streaming a completion text of length 120 emits exactly
three content frames, carrying the first 50, next 50 and last 20
characters in order, then exactly one terminal frame with empty delta and
finish_reason "stop", then the single `[DONE]` sentinel; the three chunks
concatenate back to the full text, so nothing is dropped, duplicated or
reordered. -/
theorem streaming_frames_for_length_120 (resp : ChatCompletionResponse)
    (h : (firstChoiceContent resp).length = 120) :
    handleStreamingRequest (.ok resp)
        = [.content ((firstChoiceContent resp).take 50),
           .content (((firstChoiceContent resp).drop 50).take 50),
           .content ((firstChoiceContent resp).drop 100),
           .terminal [] (("stop").toList), .done]
    ∧ ((firstChoiceContent resp).take 50).length = 50
    ∧ (((firstChoiceContent resp).drop 50).take 50).length = 50
    ∧ ((firstChoiceContent resp).drop 100).length = 20
    ∧ (firstChoiceContent resp).take 50
        ++ (((firstChoiceContent resp).drop 50).take 50
            ++ (firstChoiceContent resp).drop 100)
        = firstChoiceContent resp := by
  refine ⟨?_, ?_, ?_, ?_, ?_⟩
  · simp [handleStreamingRequest, streamChunks_of_length_120 _ h]
  · rw [List.length_take, h]; decide
  · rw [List.length_take, List.length_drop, h]; decide
  · rw [List.length_drop, h]
  · have hmid : ((firstChoiceContent resp).drop 50).take 50
        ++ (firstChoiceContent resp).drop 100
        = (firstChoiceContent resp).drop 50 := by
      rw [show (100 : Nat) = 50 + 50 from rfl, ← List.drop_drop,
        List.take_append_drop]
    rw [hmid, List.take_append_drop]

/-- A concrete chat response whose completion text has 120 characters. -/
def witStreamResp : ChatCompletionResponse :=
  { id := ("chatcmpl-1").toList, object := ("chat.completion").toList,
    created := 1, model := ("khoj-chat").toList,
    choices := [{ index := 0,
                  message := { role := ("assistant").toList,
                               content := List.replicate 120 ('a') },
                  finishReason := ("stop").toList }],
    usage := { promptTokens := 0, completionTokens := 30,
               totalTokens := 30 } }

/-- Claim C7 witness: the frame sequence evaluated on a concrete
120-character completion. -/
theorem streaming_frames_for_length_120_witness :
    handleStreamingRequest (.ok witStreamResp)
        = [.content ((firstChoiceContent witStreamResp).take 50),
           .content (((firstChoiceContent witStreamResp).drop 50).take 50),
           .content ((firstChoiceContent witStreamResp).drop 100),
           .terminal [] (("stop").toList), .done]
    ∧ ((firstChoiceContent witStreamResp).take 50).length = 50
    ∧ (((firstChoiceContent witStreamResp).drop 50).take 50).length = 50
    ∧ ((firstChoiceContent witStreamResp).drop 100).length = 20
    ∧ (firstChoiceContent witStreamResp).take 50
        ++ (((firstChoiceContent witStreamResp).drop 50).take 50
            ++ (firstChoiceContent witStreamResp).drop 100)
        = firstChoiceContent witStreamResp :=
  streaming_frames_for_length_120 witStreamResp rfl

/-- Claim C8: when the initial synchronous fetch fails, the streaming
handler emits exactly one frame — the SSE error frame carrying the failure
and the type tag "api_error" — and in particular no content frame, no
terminal frame and no `[DONE]` sentinel. -/
theorem streaming_error_single_frame (e : KhojCallError) :
    handleStreamingRequest (.error e)
        = [.errFrame e (("api_error").toList)]
    ∧ (∀ d : Str,
        StreamFrame.content d ∉ handleStreamingRequest (.error e))
    ∧ (∀ d fr : Str,
        StreamFrame.terminal d fr ∉ handleStreamingRequest (.error e))
    ∧ StreamFrame.done ∉ handleStreamingRequest (.error e) := by
  refine ⟨rfl, ?_, ?_, ?_⟩ <;> simp [handleStreamingRequest]

/-- Claim C9 (amended): every `/v1/completions` request whose prompt does
not contain an HTML document marker (`<!DOCTYPE html>` or `<html`) is
rewrapped into a chat request with the single user-role message carrying
the prompt, routed through the same translator as `/v1/chat/completions`,
and its successful response is reshaped into a text_completion object with
exactly one choice carrying the translated completion text; a prompt
containing such a marker instead takes the Apply diff branch. -/
theorem completions_rewrap_non_html (now : Nat)
    (parse : Str → Option KhojResponse)
    (net : KhojRequest → Nat → UpstreamOutcome)
    (req : CompletionRequest) (kresp : KhojResponse)
    (hna : isApplyRequest req.prompt = false)
    (hok : (callKhojAPI parse
        (net (buildKhojRequest
          [{ role := ("user").toList, content := req.prompt }]))).result
        = .ok kresp) :
    (rewrapCompletion req).messages
        = [{ role := ("user").toList, content := req.prompt }]
    ∧ handleCompletions now parse net req
        = .completion (reshapeToTextCompletion
            (mkChatResponse now req.model
              (buildPromptAndFiles
                [{ role := ("user").toList,
                   content := req.prompt }]).1 kresp))
    ∧ (reshapeToTextCompletion
          (mkChatResponse now req.model
            (buildPromptAndFiles
              [{ role := ("user").toList,
                 content := req.prompt }]).1 kresp)).choices
        = [{ text := kresp.response, index := 0,
             finishReason := ("stop").toList }]
    ∧ (reshapeToTextCompletion
          (mkChatResponse now req.model
            (buildPromptAndFiles
              [{ role := ("user").toList,
                 content := req.prompt }]).1 kresp)).object
        = ("text_completion").toList := by
  refine ⟨rfl, ?_, by simp [reshapeToTextCompletion, mkChatResponse,
    firstChoiceContent], rfl⟩
  rw [buildKhojRequest] at hok
  simp only [handleCompletions, hna, Bool.false_eq_true, if_false,
    handleChatCompletion, rewrapCompletion]
  rw [hok]

/-- A concrete legacy completion request with a plain text prompt. -/
def witCompReq : CompletionRequest :=
  { model := ("khoj-chat").toList, prompt := ("hello").toList,
    maxTokens := 0, stream := false }

/-- Claim C9 witness: a plain prompt evaluated through the rewrap path on
a concrete backend. -/
theorem completions_rewrap_non_html_witness :
    (rewrapCompletion witCompReq).messages
        = [{ role := ("user").toList, content := witCompReq.prompt }]
    ∧ handleCompletions 7 witParse witNet witCompReq
        = .completion (reshapeToTextCompletion
            (mkChatResponse 7 witCompReq.model
              (buildPromptAndFiles
                [{ role := ("user").toList,
                   content := witCompReq.prompt }]).1 witKhojResp))
    ∧ (reshapeToTextCompletion
          (mkChatResponse 7 witCompReq.model
            (buildPromptAndFiles
              [{ role := ("user").toList,
                 content := witCompReq.prompt }]).1 witKhojResp)).choices
        = [{ text := witKhojResp.response, index := 0,
             finishReason := ("stop").toList }]
    ∧ (reshapeToTextCompletion
          (mkChatResponse 7 witCompReq.model
            (buildPromptAndFiles
              [{ role := ("user").toList,
                 content := witCompReq.prompt }]).1 witKhojResp)).object
        = ("text_completion").toList :=
  completions_rewrap_non_html 7 witParse witNet witCompReq witKhojResp
    rfl rfl

/-- A concrete legacy completion request whose prompt contains `<html`. -/
def witApplyReq : CompletionRequest :=
  { model := ("khoj-chat").toList,
    prompt := ("<html><body>hi</body></html>").toList,
    maxTokens := 0, stream := false }

/-- Claim C9 counterexample: a `/v1/completions` request whose prompt
contains `<html` takes the Apply diff branch and is not reshaped into a
text_completion object, refuting the claim that every request body is
rewrapped and routed through the translator. -/
theorem completions_html_prompt_takes_apply_branch :
    handleCompletions 0 witParse witNet witApplyReq = .applyDiff
    ∧ ∀ r : TextCompletionResponse,
        handleCompletions 0 witParse witNet witApplyReq
          ≠ .completion r := by
  refine ⟨rfl, ?_⟩
  intro r h
  rw [show handleCompletions 0 witParse witNet witApplyReq
      = CompletionsOutcome.applyDiff from rfl] at h
  exact CompletionsOutcome.noConfusion h

end KhojWrapper
